import Mathlib

/-!
Shallow embedding of `src/crates/nsis-process/src/lib.rs` (the NSIS process
plugin).  The OS interactions are abstracted as explicit parameters:

* the toolhelp snapshot is a `List PROCESSENTRY32W` (entries in traversal
  order, executable names already decoded from UTF-16, which is what
  `decode_utf16_lossy` produces — it is total and lossy, so decoding never
  fails);
* the outcome of `TerminateProcess` for a pid is an oracle
  `killOk : Nat → Bool`;
* the result of `get_sid` for a pid is an oracle `sidOf : Nat → Option Nat`
  (a SID is modelled as an opaque comparable value, here `Nat`;
  `EqualSid` is structural equality);
* the internal control flow of `get_sid` itself (token opening, the two
  `GetTokenInformation` phases, and the `CloseHandle` calls) is modelled
  separately by `get_sid_trace` over a `GetSidEnv`, so that handle
  accounting on every exit path can be stated.

The pushed NSIS results `ZERO` (success) and `ONE` (failure) are modelled
as `true` and `false`.
-/

/-- One decoded snapshot entry: the fields of `PROCESSENTRY32W` the code
reads (`th32ProcessID` and the decoded `szExeFile`). -/
structure PROCESSENTRY32W where
  th32ProcessID : Nat
  szExeFile : String
deriving DecidableEq, Repr

/-- Rust `str::to_lowercase`, modelled as per-character lowercasing of the
decoded string. -/
def toLowercase (s : String) : String :=
  ⟨s.data.map Char.toLower⟩

/-- The loop-body condition at line 198–199 of the source:
`current_pid != process.th32ProcessID && decode_utf16_lossy(&process.szExeFile).to_lowercase() == name.to_lowercase()`. -/
def entryMatches (current_pid : Nat) (name : String) (e : PROCESSENTRY32W) : Bool :=
  current_pid != e.th32ProcessID && toLowercase e.szExeFile == toLowercase name

/-- The `while Process32NextW …` loop of `get_processes`: walks the
remaining snapshot entries in order, pushing the pid of each entry that
satisfies the condition. -/
def snapshotLoop (current_pid : Nat) (name : String) : List PROCESSENTRY32W → List Nat
  | [] => []
  | e :: rest =>
    if entryMatches current_pid name e then
      e.th32ProcessID :: snapshotLoop current_pid name rest
    else
      snapshotLoop current_pid name rest

/-- `get_processes` (source lines 184–210).  `Process32FirstW` fills the
entry with the first snapshot record and only its success is tested; the
loop then iterates with `Process32NextW`, so the first snapshot entry is
consumed without being examined.  An empty snapshot (or a failed
snapshot/`Process32FirstW` call) yields the empty list. -/
def get_processes (current_pid : Nat) (snapshot : List PROCESSENTRY32W) (name : String) :
    List Nat :=
  match snapshot with
  | [] => []
  | _first :: rest => snapshotLoop current_pid name rest

/-- `belongs_to_user` (source lines 121–128): resolve the sid of `pid`;
on failure report `false` (`unwrap_or_default`), otherwise compare with
`EqualSid`. -/
def belongs_to_user (sidOf : Nat → Option Nat) (user_sid : Nat) (pid : Nat) : Bool :=
  ((sidOf pid).map fun p_sid => user_sid == p_sid).getD false

/-- The iterator chain `processes.into_iter().map(kill).all(|b| b)`.
Rust's `Iterator::all` short-circuits and `map` is lazy, so `kill` runs
only until the first failure.  Returns the aggregate result together with
the list of pids that actually received a `kill` call, in order. -/
def killRun (killOk : Nat → Bool) : List Nat → Bool × List Nat
  | [] => (true, [])
  | p :: rest =>
    if killOk p then
      let r := killRun killOk rest
      (r.1, p :: r.2)
    else
      (false, [p])

/-- `FindProcess` (source lines 33–41): success iff `get_processes` is
non-empty. -/
def FindProcess (current_pid : Nat) (snapshot : List PROCESSENTRY32W) (name : String) : Bool :=
  !(get_processes current_pid snapshot name).isEmpty

/-- `FindProcessCurrentUser` (source lines 49–69): if the caller's sid
resolves, success iff some matched pid belongs to the caller; otherwise
fall back to the `FindProcess` test. -/
def FindProcessCurrentUser (current_pid : Nat) (snapshot : List PROCESSENTRY32W)
    (sidOf : Nat → Option Nat) (name : String) : Bool :=
  let processes := get_processes current_pid snapshot name
  match sidOf current_pid with
  | some user_sid => processes.any (belongs_to_user sidOf user_sid)
  | none => !processes.isEmpty

/-- `KillProcess` (source lines 77–87): result and the list of pids that
received a termination attempt.  The Rust `&&` is short-circuiting, so an
empty match set triggers no `kill` call. -/
def KillProcessRun (current_pid : Nat) (snapshot : List PROCESSENTRY32W) (name : String)
    (killOk : Nat → Bool) : Bool × List Nat :=
  let processes := get_processes current_pid snapshot name
  if processes.isEmpty then
    (false, [])
  else
    killRun killOk processes

/-- `KillProcessCurrentUser` (source lines 95–119): empty match set is
failure; with a resolvable caller sid the match set is filtered by
`belongs_to_user` before the kill chain, otherwise the whole match set is
killed. -/
def KillProcessCurrentUserRun (current_pid : Nat) (snapshot : List PROCESSENTRY32W)
    (sidOf : Nat → Option Nat) (name : String) (killOk : Nat → Bool) : Bool × List Nat :=
  let processes := get_processes current_pid snapshot name
  if processes.isEmpty then
    (false, [])
  else
    match sidOf current_pid with
    | some user_sid => killRun killOk (processes.filter (belongs_to_user sidOf user_sid))
    | none => killRun killOk processes

/-- The environment a single `get_sid` call runs against: whether
`OpenProcessToken` succeeds, the buffer length reported by the first
`GetTokenInformation` call, whether the second call succeeds, and the sid
value it would yield. -/
structure GetSidEnv where
  openProcessTokenOk : Bool
  firstInfoLength : Nat
  secondCallOk : Bool
  sidValue : Nat
deriving DecidableEq, Repr

/-- Observable outcome of one `get_sid` call: the returned sid, how many
OS handles the call acquired (the `OpenProcess` handle, plus the token
handle when `OpenProcessToken` succeeds), and how many `CloseHandle`
calls it performed. -/
structure GetSidTrace where
  sid : Option Nat
  handlesAcquired : Nat
  closeHandleCalls : Nat
deriving DecidableEq, Repr

/-- `get_sid` (source lines 140–182), with handle accounting.  The two
`return sid;` statements inside the `OpenProcessToken` success branch
(the `info_length == 0` path at line 159 and the failed second
`GetTokenInformation` path at line 172) exit before the two `CloseHandle`
calls at lines 178–179 are reached. -/
def get_sid_trace (env : GetSidEnv) : GetSidTrace :=
  if env.openProcessTokenOk then
    if env.firstInfoLength == 0 then
      { sid := none, handlesAcquired := 2, closeHandleCalls := 0 }
    else if !env.secondCallOk then
      { sid := none, handlesAcquired := 2, closeHandleCalls := 0 }
    else
      { sid := some env.sidValue, handlesAcquired := 2, closeHandleCalls := 2 }
  else
    { sid := none, handlesAcquired := 1, closeHandleCalls := 2 }

/-! ### Helper lemmas -/

theorem snapshotLoop_eq (current_pid : Nat) (name : String) :
    ∀ l : List PROCESSENTRY32W,
      snapshotLoop current_pid name l =
        (l.filter (entryMatches current_pid name)).map (fun e => e.th32ProcessID)
  | [] => rfl
  | e :: rest => by
    by_cases h : entryMatches current_pid name e = true
    · simp [snapshotLoop, h, snapshotLoop_eq current_pid name rest, List.filter_cons]
    · simp [snapshotLoop, h, snapshotLoop_eq current_pid name rest, List.filter_cons]

theorem killRun_fst (killOk : Nat → Bool) :
    ∀ l : List Nat, (killRun killOk l).1 = l.all killOk
  | [] => rfl
  | p :: rest => by
    by_cases h : killOk p = true
    · simp [killRun, h, killRun_fst killOk rest]
    · simp [killRun, h]

theorem entryMatches_congr (current_pid : Nat) {q1 q2 : String}
    (h : toLowercase q1 = toLowercase q2) (e : PROCESSENTRY32W) :
    entryMatches current_pid q1 e = entryMatches current_pid q2 e := by
  simp [entryMatches, h]

theorem isEmpty_false_of_ne_nil {α : Type} {l : List α} (h : l ≠ []) :
    l.isEmpty = false := by
  cases l with
  | nil => exact absurd rfl h
  | cons a t => rfl

/-! ### Claim theorems -/

/-- C5: for every query name and every snapshot, the caller's own process
id is never an element of the match set produced by `get_processes`, even
when the caller's own executable name matches the query. -/
theorem get_processes_excludes_self (current_pid : Nat) (snapshot : List PROCESSENTRY32W)
    (name : String) : current_pid ∉ get_processes current_pid snapshot name := by
  intro hmem
  cases snapshot with
  | nil => simp [get_processes] at hmem
  | cons first rest =>
    rw [get_processes, snapshotLoop_eq] at hmem
    simp only [List.mem_map, List.mem_filter, entryMatches, Bool.and_eq_true, bne_iff_ne,
      beq_iff_eq, decide_eq_true_eq] at hmem
    obtain ⟨e, ⟨_, hne, _⟩, hpid⟩ := hmem
    exact hne hpid.symm

/-- C5 witness: the caller (pid 1) is excluded even though its own entry
matches the query. -/
theorem get_processes_excludes_self_witness :
    1 ∉ get_processes 1 [⟨0, "sys"⟩, ⟨1, "app.exe"⟩, ⟨7, "app.exe"⟩] "app.exe" :=
  get_processes_excludes_self 1 [⟨0, "sys"⟩, ⟨1, "app.exe"⟩, ⟨7, "app.exe"⟩] "app.exe"

/-- C6: `KillProcess` reports success iff the match set is non-empty and
the termination of every matched pid succeeds; one failure makes the
whole operation fail. -/
theorem KillProcess_success_iff (current_pid : Nat) (snapshot : List PROCESSENTRY32W)
    (name : String) (killOk : Nat → Bool) :
    (KillProcessRun current_pid snapshot name killOk).1 = true ↔
      get_processes current_pid snapshot name ≠ [] ∧
        (get_processes current_pid snapshot name).all killOk = true := by
  by_cases h : get_processes current_pid snapshot name = []
  · simp [KillProcessRun, h]
  · simp [KillProcessRun, isEmpty_false_of_ne_nil h, killRun_fst, h]

/-- C6 witness: a two-element match set where one termination fails makes
the operation fail, while all-successful terminations make it succeed. -/
theorem KillProcess_success_iff_witness :
    (KillProcessRun 1 [⟨0, "sys"⟩, ⟨7, "app.exe"⟩, ⟨8, "app.exe"⟩] "app.exe"
        (fun _ => true)).1 = true ∧
    ¬ (KillProcessRun 1 [⟨0, "sys"⟩, ⟨7, "app.exe"⟩, ⟨8, "app.exe"⟩] "app.exe"
        (fun p => p == 8)).1 = true :=
  ⟨(KillProcess_success_iff 1 [⟨0, "sys"⟩, ⟨7, "app.exe"⟩, ⟨8, "app.exe"⟩] "app.exe"
      (fun _ => true)).mpr (by decide),
   fun hc => by
    have := (KillProcess_success_iff 1 [⟨0, "sys"⟩, ⟨7, "app.exe"⟩, ⟨8, "app.exe"⟩] "app.exe"
      (fun p => p == 8)).mp hc
    exact absurd this.2 (by decide)⟩

/-- C8: name matching is case-insensitive: two query names that are equal
after case folding produce the same match set on every snapshot. -/
theorem get_processes_case_insensitive (current_pid : Nat) (snapshot : List PROCESSENTRY32W)
    {q1 q2 : String} (h : toLowercase q1 = toLowercase q2) :
    get_processes current_pid snapshot q1 = get_processes current_pid snapshot q2 := by
  cases snapshot with
  | nil => rfl
  | cons first rest =>
    rw [get_processes, get_processes, snapshotLoop_eq, snapshotLoop_eq]
    have : rest.filter (entryMatches current_pid q1) =
        rest.filter (entryMatches current_pid q2) :=
      List.filter_congr fun e _ => entryMatches_congr current_pid h e
    rw [this]

/-- C8 witness: a process named `Foo.EXE` matches the queries `foo.exe`
and `FOO.EXE` identically. -/
theorem get_processes_case_insensitive_witness :
    get_processes 1 [⟨0, "sys"⟩, ⟨7, "Foo.EXE"⟩] "foo.exe" =
      get_processes 1 [⟨0, "sys"⟩, ⟨7, "Foo.EXE"⟩] "FOO.EXE" ∧
    get_processes 1 [⟨0, "sys"⟩, ⟨7, "Foo.EXE"⟩] "foo.exe" = [7] :=
  ⟨get_processes_case_insensitive 1 [⟨0, "sys"⟩, ⟨7, "Foo.EXE"⟩] (by decide), by decide⟩

/-- C9: `FindProcess` succeeds iff the match set is non-empty; on an
empty match set both `FindProcess` and `KillProcess` report failure. -/
theorem FindProcess_success_iff (current_pid : Nat) (snapshot : List PROCESSENTRY32W)
    (name : String) (killOk : Nat → Bool) :
    (FindProcess current_pid snapshot name = true ↔
      get_processes current_pid snapshot name ≠ []) ∧
    (get_processes current_pid snapshot name = [] →
      FindProcess current_pid snapshot name = false ∧
      (KillProcessRun current_pid snapshot name killOk).1 = false) := by
  constructor
  · by_cases h : get_processes current_pid snapshot name = []
    · simp [FindProcess, h]
    · simp [FindProcess, isEmpty_false_of_ne_nil h, h]
  · intro h
    constructor
    · simp [FindProcess, h]
    · simp [KillProcessRun, h]

/-- C9 witness: a query with no matching process makes both `FindProcess`
and `KillProcess` fail. -/
theorem FindProcess_success_iff_witness :
    FindProcess 1 [⟨0, "sys"⟩, ⟨7, "app.exe"⟩] "absent.exe" = false ∧
    (KillProcessRun 1 [⟨0, "sys"⟩, ⟨7, "app.exe"⟩] "absent.exe" (fun _ => true)).1 = false :=
  (FindProcess_success_iff 1 [⟨0, "sys"⟩, ⟨7, "app.exe"⟩] "absent.exe"
    (fun _ => true)).2 (by decide)

/-- C7: when the caller's own sid cannot be resolved,
`FindProcessCurrentUser` produces the same result as `FindProcess` and
`KillProcessCurrentUser` produces the same result (and the same
termination attempts) as `KillProcess`, for every query and snapshot. -/
theorem currentUser_degrades_when_sid_unresolvable (current_pid : Nat)
    (snapshot : List PROCESSENTRY32W) (sidOf : Nat → Option Nat) (name : String)
    (killOk : Nat → Bool) (h : sidOf current_pid = none) :
    FindProcessCurrentUser current_pid snapshot sidOf name =
      FindProcess current_pid snapshot name ∧
    KillProcessCurrentUserRun current_pid snapshot sidOf name killOk =
      KillProcessRun current_pid snapshot name killOk := by
  constructor
  · simp [FindProcessCurrentUser, FindProcess, h]
  · simp [KillProcessCurrentUserRun, KillProcessRun, h]

/-- C7 witness: with an unresolvable caller sid the restricted operations
coincide with the unrestricted ones on a concrete snapshot. -/
theorem currentUser_degrades_when_sid_unresolvable_witness :
    FindProcessCurrentUser 1 [⟨0, "sys"⟩, ⟨7, "app.exe"⟩] (fun _ => none) "app.exe" =
      FindProcess 1 [⟨0, "sys"⟩, ⟨7, "app.exe"⟩] "app.exe" ∧
    KillProcessCurrentUserRun 1 [⟨0, "sys"⟩, ⟨7, "app.exe"⟩] (fun _ => none) "app.exe"
        (fun _ => false) =
      KillProcessRun 1 [⟨0, "sys"⟩, ⟨7, "app.exe"⟩] "app.exe" (fun _ => false) :=
  currentUser_degrades_when_sid_unresolvable 1 [⟨0, "sys"⟩, ⟨7, "app.exe"⟩]
    (fun _ => none) "app.exe" (fun _ => false) rfl

/-- C1 counterexample: the caller's sid resolves (to 10), the match set is
the non-empty `[7]`, the ownership-filtered subset is empty (pid 7 belongs
to sid 20), yet `KillProcessCurrentUser` reports success — the claim says
this must yield failure.  The kill oracle always fails, so the success is
purely vacuous. -/
theorem KillProcessCurrentUser_empty_filter_success :
    get_processes 1 [⟨0, "sys"⟩, ⟨7, "app.exe"⟩] "app.exe" = [7] ∧
    (fun p => if p = 1 then some 10 else if p = 7 then some 20 else none) 1 = some 10 ∧
    [7].filter (belongs_to_user
      (fun p => if p = 1 then some 10 else if p = 7 then some 20 else none) 10) = [] ∧
    (KillProcessCurrentUserRun 1 [⟨0, "sys"⟩, ⟨7, "app.exe"⟩]
      (fun p => if p = 1 then some 10 else if p = 7 then some 20 else none)
      "app.exe" (fun _ => false)).1 = true := by
  refine ⟨by decide, by decide, by decide, by decide⟩

/-- C1 amended: when the caller's sid resolves, `KillProcessCurrentUser`
reports success iff the (unfiltered) match set is non-empty and the
termination of every pid in the ownership-filtered subset succeeds — in
particular it succeeds vacuously when the filtered subset is empty. -/
theorem KillProcessCurrentUser_success_iff (current_pid : Nat)
    (snapshot : List PROCESSENTRY32W) (sidOf : Nat → Option Nat) (name : String)
    (killOk : Nat → Bool) (user_sid : Nat) (h : sidOf current_pid = some user_sid) :
    (KillProcessCurrentUserRun current_pid snapshot sidOf name killOk).1 = true ↔
      get_processes current_pid snapshot name ≠ [] ∧
        ((get_processes current_pid snapshot name).filter
          (belongs_to_user sidOf user_sid)).all killOk = true := by
  by_cases he : get_processes current_pid snapshot name = []
  · simp [KillProcessCurrentUserRun, he]
  · simp [KillProcessCurrentUserRun, isEmpty_false_of_ne_nil he, h, killRun_fst, he]

/-- C1 amended witness: both matched pids belong to the caller and both
terminations succeed, so the operation succeeds. -/
theorem KillProcessCurrentUser_success_iff_witness :
    (KillProcessCurrentUserRun 1 [⟨0, "sys"⟩, ⟨7, "app.exe"⟩, ⟨8, "app.exe"⟩]
      (fun p => if p = 9 then none else some 10) "app.exe" (fun _ => true)).1 = true :=
  (KillProcessCurrentUser_success_iff 1 [⟨0, "sys"⟩, ⟨7, "app.exe"⟩, ⟨8, "app.exe"⟩]
    (fun p => if p = 9 then none else some 10) "app.exe" (fun _ => true) 10
    (by decide)).mpr (by decide)

/-- C2: with match set `[7, 8]` and a kill oracle that fails on 7 and
would succeed on 8, `KillProcess` attempts only pid 7: the lazy
`map(kill).all(..)` chain short-circuits at the first failure, so pid 8
never receives a termination attempt, contradicting the claim that every
matched pid receives exactly one attempt. `KillProcessCurrentUser` runs
the same chain on its filtered set and short-circuits identically. -/
theorem KillProcess_stops_at_first_failure :
    get_processes 1 [⟨0, "sys"⟩, ⟨7, "app.exe"⟩, ⟨8, "app.exe"⟩] "app.exe" = [7, 8] ∧
    KillProcessRun 1 [⟨0, "sys"⟩, ⟨7, "app.exe"⟩, ⟨8, "app.exe"⟩] "app.exe"
      (fun p => p == 8) = (false, [7]) ∧
    KillProcessCurrentUserRun 1 [⟨0, "sys"⟩, ⟨7, "app.exe"⟩, ⟨8, "app.exe"⟩]
      (fun _ => some 10) "app.exe" (fun p => p == 8) = (false, [7]) := by
  refine ⟨by decide, by decide, by decide⟩

/-- C3 counterexample: a snapshot whose first entry matches the query
(and is not the caller) yields an empty match set — `Process32FirstW`'s
entry is never examined, so a matching first entry is omitted. -/
theorem get_processes_skips_first_entry :
    entryMatches 1 "foo.exe" ⟨5, "foo.exe"⟩ = true ∧
    get_processes 1 [⟨5, "foo.exe"⟩] "foo.exe" = [] := by
  refine ⟨by decide, by decide⟩

/-- C3 amended: `get_processes` collects, in snapshot traversal order,
the id of every snapshot entry after the first whose decoded executable
name matches the query case-insensitively and whose id differs from the
caller's pid; the first snapshot entry is never examined. -/
theorem get_processes_eq_filter_drop_one (current_pid : Nat)
    (snapshot : List PROCESSENTRY32W) (name : String) :
    get_processes current_pid snapshot name =
      ((snapshot.drop 1).filter (entryMatches current_pid name)).map
        (fun e => e.th32ProcessID) := by
  cases snapshot with
  | nil => rfl
  | cons first rest => simpa [get_processes] using snapshotLoop_eq current_pid name rest

/-- C4: on the two early-return failure paths of `get_sid` (required token
size reported as zero; second `GetTokenInformation` call fails), the call
has acquired two handles but performs zero `CloseHandle` calls — both the
process handle and the token handle leak.  Only the success path (and the
failed-`OpenProcessToken` path) closes what it acquired. -/
theorem get_sid_leaks_on_early_return :
    get_sid_trace ⟨true, 0, true, 0⟩ =
      { sid := none, handlesAcquired := 2, closeHandleCalls := 0 } ∧
    get_sid_trace ⟨true, 4, false, 0⟩ =
      { sid := none, handlesAcquired := 2, closeHandleCalls := 0 } ∧
    get_sid_trace ⟨true, 4, true, 9⟩ =
      { sid := some 9, handlesAcquired := 2, closeHandleCalls := 2 } := by
  refine ⟨by decide, by decide, by decide⟩

/-- C10: membership in the match set is characterised by whole-string
equality after case folding — a pid is collected iff some snapshot entry
after the first carries it, it is not the caller's pid, and its entire
lowercased executable name equals the entire lowercased query. -/
theorem get_processes_whole_string_match (current_pid : Nat)
    (snapshot : List PROCESSENTRY32W) (name : String) (p : Nat) :
    p ∈ get_processes current_pid snapshot name ↔
      ∃ e, e ∈ snapshot.drop 1 ∧ e.th32ProcessID = p ∧ current_pid ≠ p ∧
        toLowercase e.szExeFile = toLowercase name := by
  cases snapshot with
  | nil => simp [get_processes]
  | cons first rest =>
    rw [get_processes, snapshotLoop_eq]
    simp only [List.drop_succ_cons, List.drop_zero, List.mem_map, List.mem_filter,
      entryMatches, Bool.and_eq_true, bne_iff_ne, beq_iff_eq, decide_eq_true_eq]
    constructor
    · rintro ⟨e, ⟨he, hne, hname⟩, hpid⟩
      exact ⟨e, he, hpid, hpid ▸ hne, hname⟩
    · rintro ⟨e, he, hpid, hne, hname⟩
      exact ⟨e, ⟨he, hpid ▸ hne, hname⟩, hpid⟩

/-- C10 witness: the query `FOO.EXE` matches the entry `Foo.EXE` (whole
string, case-folded), while the query `foo` does not match `Foo.EXE`
(no substring matching). -/
theorem get_processes_whole_string_match_witness :
    5 ∈ get_processes 1 [⟨0, "sys"⟩, ⟨5, "Foo.EXE"⟩] "FOO.EXE" ∧
    5 ∉ get_processes 1 [⟨0, "sys"⟩, ⟨5, "Foo.EXE"⟩] "foo" :=
  ⟨(get_processes_whole_string_match 1 [⟨0, "sys"⟩, ⟨5, "Foo.EXE"⟩] "FOO.EXE" 5).mpr
    ⟨⟨5, "Foo.EXE"⟩, by decide, rfl, by decide, by decide⟩,
   by decide⟩
